import Mathlib

/-!
Shallow embedding of the authentication and authorization core of the
fastener-api repository: custom error values (src/utils/errors.go), the
JWT token codec (src/middleware/jwt.go), the permission cache
(src/service/permission.go), the authorization middleware
(src/middleware/authz.go) and the session service (src/service/company.go,
src/handler/auth.go).

Machine integers are modelled as Lean Int (no overflow is relevant to the
claims), time as Unix seconds passed explicitly as a `now` parameter, and
the HMAC signature symbolically as the triple of secret, algorithm and
payload (an ideal MAC: a signature verifies exactly when it was produced
over the same bytes with the same secret).  JSON decoding of a token
payload into a Go claims struct follows encoding/json semantics: unknown
payload fields are ignored and missing fields decode to the Go zero value.
-/

namespace Fastener

/-- CustomError from src/utils/errors.go: code, message, optional details. -/
structure CustomError where
  code : Nat
  message : String
  details : Option String := none
deriving DecidableEq, Repr

/-- SetDetails from src/utils/errors.go (value semantics). -/
def CustomError.setDetails (e : CustomError) (d : String) : CustomError :=
  { e with details := some d }

def errBadRequest : CustomError := { code := 400, message := "Bad Request" }

def errUnauthorized : CustomError := { code := 401, message := "Unauthorized" }

def errForbidden : CustomError := { code := 403, message := "Forbidden" }

def errNotFound : CustomError := { code := 404, message := "Resource not found" }

def errInternalServer : CustomError := { code := 500, message := "Internal server error" }

/-- Account model from src/models/account.go. -/
structure Account where
  id : Int
  username : String
  password : String
  roleId : Int
  roleName : String := ""
  createdAt : Int := 0
  updatedAt : Int := 0
deriving DecidableEq, Repr

/-- Role model from src/models/role.go. -/
structure Role where
  id : Int
  name : String
deriving DecidableEq, Repr

/-- Permission model from src/models/role.go (only the Name field is used
by the permission service). -/
structure Permission where
  name : String
deriving DecidableEq, Repr

/-! JWT codec, from src/middleware/jwt.go and the golang-jwt/v5 library
behaviour it relies on. -/

/-- Signing algorithm recorded in the token header. -/
inductive Alg where
  | HS256
  | RS256
deriving DecidableEq, Repr

/-- The keyfunc in jwt.go accepts only jwt.SigningMethodHMAC. -/
def Alg.isHMAC : Alg → Bool
  | .HS256 => true
  | .RS256 => false

/-- The JSON payload of a token: every field optional, exactly the union of
keys an AccessClaims or RefreshClaims serialization can contain. -/
structure Payload where
  account_id : Option Int := none
  username : Option String := none
  role_id : Option Int := none
  exp : Option Int := none
  iat : Option Int := none
  iss : Option String := none
  sub : Option String := none
deriving DecidableEq, Repr

/-- Symbolic HMAC signature: determined by secret, header algorithm and
payload bytes (ideal MAC, no collisions). -/
structure Sig where
  secret : String
  alg : Alg
  payload : Payload
deriving DecidableEq, Repr

/-- A compact serialized JWT: header algorithm, payload, signature. -/
structure Token where
  alg : Alg
  payload : Payload
  sig : Sig
deriving DecidableEq, Repr

/-- jwt.NewWithClaims(...).SignedString(secret). -/
def signToken (secret : String) (alg : Alg) (p : Payload) : Token :=
  { alg := alg, payload := p, sig := { secret := secret, alg := alg, payload := p } }

/-- AccessClaims from src/middleware/jwt.go after decoding (Go zero values
for fields absent from the payload). -/
structure AccessClaims where
  accountId : Int
  username : String
  roleId : Int
  exp : Option Int
  iat : Option Int
  iss : Option String
  sub : Option String
deriving DecidableEq, Repr

/-- RefreshClaims from src/middleware/jwt.go after decoding. -/
structure RefreshClaims where
  accountId : Int
  exp : Option Int
  iat : Option Int
  iss : Option String
  sub : Option String
deriving DecidableEq, Repr

/-- encoding/json decoding of a payload into AccessClaims: unknown keys
ignored, missing keys decode to zero values. -/
def decodeAccessClaims (p : Payload) : AccessClaims :=
  { accountId := p.account_id.getD 0
    username := p.username.getD ""
    roleId := p.role_id.getD 0
    exp := p.exp
    iat := p.iat
    iss := p.iss
    sub := p.sub }

/-- encoding/json decoding of a payload into RefreshClaims: the username
and role_id keys of an access-token payload are simply ignored. -/
def decodeRefreshClaims (p : Payload) : RefreshClaims :=
  { accountId := p.account_id.getD 0
    exp := p.exp
    iat := p.iat
    iss := p.iss
    sub := p.sub }

/-- golang-jwt/v5 default claims validation: exp (if present) must be
strictly in the future, iat (if present) must not be in the future. -/
def claimsValid (now : Int) (p : Payload) : Bool :=
  (match p.exp with
    | some e => decide (now < e)
    | none => true)
  && (match p.iat with
    | some i => decide (i ≤ now)
    | none => true)

/-- Signature and header check of jwt.ParseWithClaims with the keyfunc of
src/middleware/jwt.go: the method must be HMAC and the signature must
verify under the shared secret. -/
def verifySignature (t : Token) (secret : String) : Bool :=
  t.alg.isHMAC && (t.sig == Sig.mk secret t.alg t.payload)

/-- Full jwt.ParseWithClaims acceptance condition: signature plus
registered-claims validation. -/
def parseValid (now : Int) (t : Token) (secret : String) : Bool :=
  verifySignature t secret && claimsValid now t.payload

/-- GenerateAuthTokens from src/middleware/jwt.go: the access-token payload
(expiry in hours, issued at now). -/
def accessTokenPayload (account : Account) (accessExpiresHours now : Int) : Payload :=
  { account_id := some account.id
    username := some account.username
    role_id := some account.roleId
    exp := some (now + 3600 * accessExpiresHours)
    iat := some now
    iss := some "fastener-api"
    sub := some (toString account.id) }

/-- GenerateAuthTokens from src/middleware/jwt.go: the refresh-token
payload (account id plus registered claims only). -/
def refreshTokenPayload (account : Account) (refreshExpiresHours now : Int) : Payload :=
  { account_id := some account.id
    exp := some (now + 3600 * refreshExpiresHours)
    iat := some now
    iss := some "fastener-api"
    sub := some (toString account.id) }

/-- GenerateAuthTokens from src/middleware/jwt.go: returns the pair of an
access token and a refresh token, both HS256-signed with the one secret. -/
def generateAuthTokens (account : Account) (secret : String)
    (accessExpiresHours refreshExpiresHours now : Int) : Token × Token :=
  (signToken secret Alg.HS256 (accessTokenPayload account accessExpiresHours now),
   signToken secret Alg.HS256 (refreshTokenPayload account refreshExpiresHours now))

/-- VerifyRefreshToken from src/middleware/jwt.go: parse with the
RefreshClaims schema; any failure collapses to Unauthorized. -/
def verifyRefreshToken (now : Int) (t : Token) (secret : String) :
    Except CustomError RefreshClaims :=
  if parseValid now t secret then
    Except.ok (decodeRefreshClaims t.payload)
  else
    Except.error (errUnauthorized.setDetails "Invalid refresh token")

/-- JwtVerifier.VerifyToken (access branch) from src/middleware/jwt.go:
parse with the AccessClaims schema; any failure collapses to
Unauthorized. -/
def verifyAccessToken (now : Int) (t : Token) (secret : String) :
    Except CustomError AccessClaims :=
  if parseValid now t secret then
    Except.ok (decodeAccessClaims t.payload)
  else
    Except.error (errUnauthorized.setDetails "Invalid token")

/-! Permission service, from src/service/permission.go.  The state of a
permissionServiceImpl: the injected permission repository (modelled as the
function FindPermissionsByRoleID) and the in-memory rolePermissionsCache.
A Go map[string]bool built from a permission list is modelled by the list
of names with exact (case-sensitive) membership.  Store-query counting is
made explicit so that cache-hit claims are expressible. -/

structure PermState where
  store : Int → Except Unit (List Permission)
  cache : List (Int × List String)

/-- loadPermissionsForRole from src/service/permission.go: query the store
for all permissions of the role; on success insert the name set into the
cache, on failure propagate the error leaving the cache unchanged. -/
def loadPermissionsForRole (s : PermState) (roleId : Int) : Except Unit PermState :=
  match s.store roleId with
  | Except.error e => Except.error e
  | Except.ok perms =>
      Except.ok { s with cache := (roleId, perms.map Permission.name) :: s.cache }

/-- HasPermission from src/service/permission.go: returns the decision (or
the InternalError the service surfaces), the updated service state, and
how many store queries the call performed. -/
def hasPermission (s : PermState) (roleId : Int) (permission : String) :
    Except CustomError Bool × PermState × Nat :=
  match s.cache.lookup roleId with
  | some rolePerms => (Except.ok (rolePerms.contains permission), s, 0)
  | none =>
    match loadPermissionsForRole s roleId with
    | Except.error _ =>
        (Except.error (errInternalServer.setDetails "Failed to retrieve permissions"), s, 1)
    | Except.ok s2 =>
      match s2.cache.lookup roleId with
      | some rolePerms => (Except.ok (rolePerms.contains permission), s2, 1)
      | none =>
          (Except.error (errInternalServer.setDetails "Could not verify permission"), s2, 1)

/-- Outcome of the Authorize middleware from src/middleware/authz.go:
either the wrapped handler runs, or the request is answered with an error
status and body. -/
inductive AuthzResult where
  | next
  | denied (status : Nat) (e : CustomError)
deriving DecidableEq, Repr

/-- Authorize from src/middleware/authz.go: claims missing from the
context deny with 401; RoleID 1 (the reserved administrator role) passes
unconditionally; otherwise the decision is delegated to HasPermission,
store errors becoming 500 and a false decision 403.  The returned state
and counter expose the permission-service interaction. -/
def authorize (claimsOpt : Option AccessClaims) (permission : String) (s : PermState) :
    AuthzResult × PermState × Nat :=
  match claimsOpt with
  | none =>
      (AuthzResult.denied 401
        (errUnauthorized.setDetails "Invalid or missing authentication credentials"), s, 0)
  | some claims =>
    if claims.roleId = 1 then
      (AuthzResult.next, s, 0)
    else
      match hasPermission s claims.roleId permission with
      | (Except.error _, s2, n) => (AuthzResult.denied 500 errInternalServer, s2, n)
      | (Except.ok false, s2, n) =>
          (AuthzResult.denied 403
            (errForbidden.setDetails "Insufficient permissions to perform this action"), s2, n)
      | (Except.ok true, s2, n) => (AuthzResult.next, s2, n)

/-! Session service, from src/service/company.go (authServiceImpl) and
src/handler/auth.go.  The injected repositories are modelled as fallible
lookup functions, bcrypt hashing and comparison as explicit function
parameters (they live in golang.org/x/crypto, outside this repository). -/

/-- The account and role repositories an authServiceImpl is built from
(src/repository/account.go, src/repository/role.go interfaces). -/
structure AuthDb where
  findByUsername : String → Except Unit (Option Account)
  findAccountById : Int → Except Unit (Option Account)
  findRoleById : Int → Except Unit (Option Role)
  createAccount : Account → Except Unit Account

/-- Login from src/service/company.go: unknown username and wrong password
collapse to the same Unauthorized value; a missing role is an internal
inconsistency; on success both tokens are minted for the account enriched
with its role name. -/
def login (db : AuthDb) (check : String → String → Bool) (secret : String)
    (accessExpiresHours refreshExpiresHours now : Int) (username password : String) :
    Except CustomError (Token × Token × Account) :=
  match db.findByUsername username with
  | Except.error _ => Except.error errInternalServer
  | Except.ok none => Except.error (errUnauthorized.setDetails "Invalid credentials")
  | Except.ok (some account) =>
    if ! check password account.password then
      Except.error (errUnauthorized.setDetails "Invalid credentials")
    else
      match db.findRoleById account.roleId with
      | Except.error _ => Except.error errInternalServer
      | Except.ok none =>
          Except.error (errInternalServer.setDetails "Account role not configured correctly")
      | Except.ok (some role) =>
        let enriched := { account with roleName := role.name }
        let tokens := generateAuthTokens enriched secret accessExpiresHours refreshExpiresHours now
        Except.ok (tokens.1, tokens.2, enriched)

/-- Register from src/service/company.go: duplicate username and unknown
role id are BadRequest; the password is hashed before persistence; the
created account (with the role name filled in) is returned. -/
def register (db : AuthDb) (hash : String → String) (username password : String)
    (roleId : Int) : Except CustomError Account :=
  match db.findByUsername username with
  | Except.error _ => Except.error errInternalServer
  | Except.ok (some _) => Except.error (errBadRequest.setDetails "Username already exists")
  | Except.ok none =>
    match db.findRoleById roleId with
    | Except.error _ => Except.error errInternalServer
    | Except.ok none => Except.error (errBadRequest.setDetails "Invalid Role ID")
    | Except.ok (some role) =>
      let newAccount : Account :=
        { id := 0, username := username, password := hash password, roleId := roleId }
      match db.createAccount newAccount with
      | Except.error _ =>
          Except.error (errInternalServer.setDetails "Failed to register account")
      | Except.ok created => Except.ok { created with roleName := role.name }

/-- RefreshToken from src/service/company.go: verify the refresh token,
re-load the account by the embedded id (a vanished account is
Unauthorized), then mint a fresh access token from the re-read account. -/
def refreshTokenService (db : AuthDb) (secret : String)
    (accessExpiresHours refreshExpiresHours now : Int) (refreshTok : Token) :
    Except CustomError Token :=
  match verifyRefreshToken now refreshTok secret with
  | Except.error _ =>
      Except.error (errUnauthorized.setDetails "Invalid or expired refresh token")
  | Except.ok claims =>
    match db.findAccountById claims.accountId with
    | Except.error _ => Except.error errInternalServer
    | Except.ok none =>
        Except.error (errUnauthorized.setDetails "Invalid refresh token: Account not found")
    | Except.ok (some account) =>
        Except.ok (generateAuthTokens account secret accessExpiresHours refreshExpiresHours now).1

/-- RegisterRequest from src/models/account.go. -/
structure RegisterRequest where
  username : String
  password : String
  roleId : Int
deriving DecidableEq, Repr

/-- The validate tags on RegisterRequest: username 3..50 characters,
password at least 6, role id at least 1. -/
def validRegisterRequest (req : RegisterRequest) : Bool :=
  decide (3 ≤ req.username.length) && decide (req.username.length ≤ 50)
    && decide (6 ≤ req.password.length) && decide (1 ≤ req.roleId)

/-- An HTTP response produced by the Register handler: either a status
with a serialized account body, or a status with an error body. -/
inductive HandlerResp where
  | created (status : Nat) (account : Account)
  | failure (status : Nat) (e : CustomError)
deriving DecidableEq, Repr

/-- AuthHandler.Register from src/handler/auth.go: validation failures are
400; service errors are serialized with their own code; on success the
account is returned with the password field blanked before serialization. -/
def registerHandler (db : AuthDb) (hash : String → String) (req : RegisterRequest) :
    HandlerResp :=
  if ! validRegisterRequest req then
    HandlerResp.failure 400 { code := 400, message := "Validation failed" }
  else
    match register db hash req.username req.password req.roleId with
    | Except.error ce => HandlerResp.failure ce.code ce
    | Except.ok account => HandlerResp.created 201 { account with password := "" }

/-- Sequencing of HasPermission calls, threading the service state. -/
def runTrace (s : PermState) (calls : List (Int × String)) : PermState :=
  calls.foldl (fun st c => (hasPermission st c.1 c.2).2.1) s

/-! Concrete inputs used to exercise the definitions. -/

/-- A sample stored account: id 7, role 2 (not the administrator role). -/
def acctDemo : Account :=
  { id := 7, username := "alice", password := "stored-bcrypt-hash", roleId := 2 }

/-- The account re-read at refresh time: same id, role changed to 5. -/
def acctDemoRole5 : Account := { acctDemo with roleId := 5 }

/-- Decoded claims of an administrator (role id 1). -/
def adminClaims : AccessClaims :=
  { accountId := 1, username := "root", roleId := 1
    exp := none, iat := none, iss := none, sub := none }

/-- Decoded claims of a non-administrator (role id 2). -/
def financeClaims : AccessClaims :=
  { accountId := 7, username := "alice", roleId := 2
    exp := none, iat := none, iss := none, sub := none }

/-- A correctly signed token that expired at time 5. -/
def tokExpired : Token :=
  signToken "k" Alg.HS256 { account_id := some 1, exp := some 5, iat := some 0 }

/-- A permission store that always fails. -/
def failingPermState : PermState :=
  { store := fun _ => Except.error (), cache := [] }

/-- A store that knows role 2 with the single permission company:read. -/
def financeStore : Int → Except Unit (List Permission) :=
  fun r => if r = 2 then Except.ok [{ name := "company:read" }] else Except.error ()

/-- Fresh permission service over financeStore. -/
def financePermState : PermState := { store := financeStore, cache := [] }

/-- Service whose cache already holds an entry for role 3. -/
def seededPermState : PermState :=
  { store := financeStore, cache := [(3, ["menu:read"])] }

/-- A store for which role 4 exists with zero permissions. -/
def emptyRolePermState : PermState :=
  { store := fun r => if r = 4 then Except.ok [] else Except.error (), cache := [] }

/-- A deterministic stand-in for the bcrypt hash function. -/
def hashDemo : String → String := fun p => String.append "bcrypt$" p

/-- A password comparison that always fails (wrong password). -/
def checkNever : String → String → Bool := fun _ _ => false

/-- Repository stub whose every lookup fails. -/
def dbStub : AuthDb :=
  { findByUsername := fun _ => Except.error ()
    findAccountById := fun _ => Except.error ()
    findRoleById := fun _ => Except.error ()
    createAccount := fun _ => Except.error () }

/-- Repository in which username alice is already taken. -/
def dbDup : AuthDb :=
  { dbStub with
      findByUsername := fun u => if u = "alice" then Except.ok (some acctDemo) else Except.ok none }

/-- Repository with no accounts and no roles. -/
def dbNoRole : AuthDb :=
  { dbStub with
      findByUsername := fun _ => Except.ok none
      findRoleById := fun _ => Except.ok none }

/-- Repository with no accounts, role 2 present, and a create that assigns
id 42. -/
def dbCreate : AuthDb :=
  { dbStub with
      findByUsername := fun _ => Except.ok none
      findRoleById := fun r => if r = 2 then Except.ok (some { id := 2, name := "finance" }) else Except.ok none
      createAccount := fun a => Except.ok { a with id := 42 } }

/-- Repository in which account alice exists (for wrong-password login). -/
def dbAlice : AuthDb :=
  { dbStub with
      findByUsername := fun u => if u = "alice" then Except.ok (some acctDemo) else Except.ok none }

/-- Repository in which no account id resolves (deleted account). -/
def dbDeleted : AuthDb :=
  { dbStub with findAccountById := fun _ => Except.ok none }

/-- Repository in which account 7 resolves to its fresh state (role 5). -/
def dbFresh : AuthDb :=
  { dbStub with
      findAccountById := fun i => if i = 7 then Except.ok (some acctDemoRole5) else Except.ok none }

/-- A well-formed registration request. -/
def reqDemo : RegisterRequest := { username := "alice", password := "secret123", roleId := 2 }

/-! Helper lemmas shared by several developments below. -/

/-- Any single HasPermission call keeps every existing cache entry intact
(entries are only ever prepended, never removed or replaced). -/
theorem hasPermission_preserves_entry (s : PermState) (rid : Int) (p : String)
    (r : Int) (Q : List String) (h : s.cache.lookup r = some Q) :
    (hasPermission s rid p).2.1.cache.lookup r = some Q := by
  unfold hasPermission
  cases hc : s.cache.lookup rid with
  | some perms => simpa using h
  | none =>
    unfold loadPermissionsForRole
    cases hs : s.store rid with
    | error e => simpa using h
    | ok perms =>
      have hne : (r == rid) = false := by
        rcases eq_or_ne r rid with he | he
        · rw [he] at h; rw [h] at hc; cases hc
        · simpa using he
      simp [List.lookup, hne, h]

/-- Any sequence of HasPermission calls keeps every existing cache entry
intact. -/
theorem runTrace_preserves_entry (calls : List (Int × String)) (s : PermState)
    (r : Int) (Q : List String) (h : s.cache.lookup r = some Q) :
    (runTrace s calls).cache.lookup r = some Q := by
  induction calls generalizing s with
  | nil => simpa [runTrace] using h
  | cons c cs ih =>
    have step := hasPermission_preserves_entry s c.1 c.2 r Q h
    simpa [runTrace] using ih _ step

/-- A cache-served HasPermission call: cached entry decides, state is
untouched, and the store is not contacted. -/
theorem hasPermission_cache_hit (s : PermState) (rid : Int) (p : String)
    (Q : List String) (h : s.cache.lookup rid = some Q) :
    hasPermission s rid p = (Except.ok (Q.contains p), s, 0) := by
  unfold hasPermission
  rw [h]

/-- A cache-missing HasPermission call against a successful store: the
decision is exact membership in the freshly loaded name set, the name set
is inserted into the cache, and the store is contacted once. -/
theorem hasPermission_cache_miss_ok (s : PermState) (rid : Int) (p : String)
    (P : List Permission) (hc : s.cache.lookup rid = none)
    (hs : s.store rid = Except.ok P) :
    hasPermission s rid p =
      (Except.ok ((P.map Permission.name).contains p),
       { s with cache := (rid, P.map Permission.name) :: s.cache }, 1) := by
  unfold hasPermission loadPermissionsForRole
  rw [hc, hs]
  simp [List.lookup]

/-- A cache-missing HasPermission call against a failing store: the call
surfaces the internal error, leaves the state unchanged, and contacted the
store once. -/
theorem hasPermission_cache_miss_err (s : PermState) (rid : Int) (p : String)
    (hc : s.cache.lookup rid = none) (hs : s.store rid = Except.error ()) :
    hasPermission s rid p =
      (Except.error (errInternalServer.setDetails "Failed to retrieve permissions"), s, 1) := by
  unfold hasPermission loadPermissionsForRole
  rw [hc, hs]

/-! Claim theorems. -/

/-- C1: the spec requires that a refresh token presented to the
access-token verifier, and an access token presented to the refresh-token
verifier, are rejected with Unauthorized.  The code does neither: JSON
decoding ignores unknown payload fields and zero-fills missing ones, and
the signature is shared, so a freshly issued, unexpired access token for
account 7 is accepted by VerifyRefreshToken, and the matching refresh
token is accepted by the access verifier (with username "" and role id 0).
This theorem evaluates both verifiers at that failing input. -/
theorem c1_cross_token_verification_accepts :
    verifyRefreshToken 1000 (generateAuthTokens acctDemo "topsecret" 1 720 1000).1 "topsecret"
      = Except.ok { accountId := 7, exp := some 4600, iat := some 1000
                    iss := some "fastener-api", sub := some "7" }
    ∧ verifyAccessToken 1000 (generateAuthTokens acctDemo "topsecret" 1 720 1000).2 "topsecret"
      = Except.ok { accountId := 7, username := "", roleId := 0, exp := some 2593000
                    iat := some 1000, iss := some "fastener-api", sub := some "7" } := by
  constructor <;> rfl

/-- C2: a token whose expiry lies strictly in the past at verification
time is rejected with Unauthorized by both the refresh verifier and the
access verifier, whatever its signature, algorithm or other claims. -/
theorem c2_expired_token_rejected (now : Int) (t : Token) (secret : String) (e : Int)
    (hexp : t.payload.exp = some e) (hpast : e < now) :
    verifyRefreshToken now t secret
      = Except.error (errUnauthorized.setDetails "Invalid refresh token")
    ∧ verifyAccessToken now t secret
      = Except.error (errUnauthorized.setDetails "Invalid token") := by
  have hnot : ¬ now < e := by omega
  have hcv : claimsValid now t.payload = false := by
    unfold claimsValid
    rw [hexp]
    simp [hnot]
  have hpv : parseValid now t secret = false := by
    unfold parseValid
    rw [hcv]
    simp
  constructor
  · unfold verifyRefreshToken
    rw [hpv]
    rfl
  · unfold verifyAccessToken
    rw [hpv]
    rfl

/-- C2 witness: the concrete token tokExpired (exp 5) verified at time 10
is rejected by both verifiers. -/
theorem c2_expired_token_rejected_witness :
    verifyRefreshToken 10 tokExpired "k"
      = Except.error (errUnauthorized.setDetails "Invalid refresh token")
    ∧ verifyAccessToken 10 tokExpired "k"
      = Except.error (errUnauthorized.setDetails "Invalid token") :=
  c2_expired_token_rejected 10 tokExpired "k" 5 rfl (by decide)

/-- C5: verifying a freshly issued access token with the same secret, at
any time t between issuance and expiry, succeeds and returns claims whose
account id, username and role id are the account's, with issued-at the
issuance time and expiry exactly issued-at plus the configured ttl (in
hours). -/
theorem c5_verify_issue_roundtrip (account : Account) (secret : String)
    (accessExpiresHours refreshExpiresHours now t : Int)
    (hiat : now ≤ t) (hexp : t < now + 3600 * accessExpiresHours) :
    verifyAccessToken t (generateAuthTokens account secret accessExpiresHours refreshExpiresHours now).1 secret
      = Except.ok { accountId := account.id, username := account.username
                    roleId := account.roleId
                    exp := some (now + 3600 * accessExpiresHours), iat := some now
                    iss := some "fastener-api", sub := some (toString account.id) } := by
  have hpv : parseValid t (generateAuthTokens account secret accessExpiresHours refreshExpiresHours now).1 secret = true := by
    unfold parseValid verifySignature claimsValid generateAuthTokens signToken accessTokenPayload Alg.isHMAC
    simp [hiat, hexp]
  unfold verifyAccessToken
  rw [hpv]
  simp [generateAuthTokens, signToken, accessTokenPayload, decodeAccessClaims]

/-- C5 witness: the access token issued to acctDemo at time 0 with a
1-hour ttl, verified at time 100, yields acctDemo's identity and expiry
3600. -/
theorem c5_verify_issue_roundtrip_witness :
    verifyAccessToken 100 (generateAuthTokens acctDemo "k" 1 720 0).1 "k"
      = Except.ok { accountId := acctDemo.id, username := acctDemo.username
                    roleId := acctDemo.roleId
                    exp := some (0 + 3600 * 1), iat := some 0
                    iss := some "fastener-api", sub := some (toString acctDemo.id) } :=
  c5_verify_issue_roundtrip acctDemo "k" 1 720 0 100 (by decide) (by decide)

/-- C3: for claims carrying the reserved administrator role id 1, the
Authorize middleware passes the request on for every required permission
string and every permission-service state, leaving the service state
untouched and performing zero store queries. -/
theorem c3_admin_bypass (claims : AccessClaims) (permission : String) (s : PermState)
    (hadmin : claims.roleId = 1) :
    authorize (some claims) permission s = (AuthzResult.next, s, 0) := by
  simp [authorize, hadmin]

/-- C3 witness: the admin claims pass for a permission string the failing
store certainly does not know, with no store interaction. -/
theorem c3_admin_bypass_witness :
    authorize (some adminClaims) "no:such-permission" failingPermState
      = (AuthzResult.next, failingPermState, 0) :=
  c3_admin_bypass adminClaims "no:such-permission" failingPermState rfl

/-- C4: for a non-administrator role whose permission-name set in the
store is the names of P, Authorize passes exactly when the required string
is an element of that set under exact, case-sensitive string equality,
answering 403 Forbidden otherwise; and when the store lookup fails the
middleware answers 500 InternalError. -/
theorem c4_nonadmin_exact_match (claims : AccessClaims) (perm : String)
    (P : List Permission) (s1 s2 : PermState)
    (hna : claims.roleId ≠ 1)
    (hc1 : s1.cache.lookup claims.roleId = none)
    (hs1 : s1.store claims.roleId = Except.ok P)
    (hc2 : s2.cache.lookup claims.roleId = none)
    (hs2 : s2.store claims.roleId = Except.error ()) :
    ((P.map Permission.name).contains perm = true ↔ perm ∈ P.map Permission.name)
    ∧ authorize (some claims) perm s1
      = (if (P.map Permission.name).contains perm then AuthzResult.next
         else AuthzResult.denied 403
           (errForbidden.setDetails "Insufficient permissions to perform this action"),
         { s1 with cache := (claims.roleId, P.map Permission.name) :: s1.cache }, 1)
    ∧ authorize (some claims) perm s2 = (AuthzResult.denied 500 errInternalServer, s2, 1) := by
  refine ⟨by simp, ?_, ?_⟩
  · have h1 := hasPermission_cache_miss_ok s1 claims.roleId perm P hc1 hs1
    simp only [authorize]
    rw [if_neg hna, h1]
    cases hmem : (P.map Permission.name).contains perm <;> simp [hmem]
  · have h2 := hasPermission_cache_miss_err s2 claims.roleId perm hc2 hs2
    simp only [authorize]
    rw [if_neg hna, h2]

/-- C4 witness: role 2 with stored set containing exactly company:read is
allowed company:read (an exact element) by a fresh service, and the same
claims are answered 500 when the store fails. -/
theorem c4_nonadmin_exact_match_witness :
    (([{ name := "company:read" }] : List Permission).map Permission.name).contains "company:read" = true
    ∧ authorize (some financeClaims) "company:read" financePermState
      = (AuthzResult.next,
         { financePermState with
             cache := (2, [ "company:read" ]) :: financePermState.cache }, 1)
    ∧ authorize (some financeClaims) "company:read" failingPermState
      = (AuthzResult.denied 500 errInternalServer, failingPermState, 1) := by
  have h := c4_nonadmin_exact_match financeClaims "company:read"
    [{ name := "company:read" }] financePermState failingPermState
    (by decide) rfl rfl rfl rfl
  exact ⟨by simp, by simpa using h.2.1, h.2.2⟩

/-- C6 counterexample: the claim says two consecutive HasPermission calls
for the same role reach the store at most once.  With a failing store and
an empty cache, each of two consecutive calls for role 2 performs one
store query, two in total. -/
theorem c6_failing_store_two_calls_two_queries :
    (hasPermission failingPermState 2 "company:read").2.2
        + (hasPermission (hasPermission failingPermState 2 "company:read").2.1 2 "company:read").2.2 = 2
    ∧ ¬ ((hasPermission failingPermState 2 "company:read").2.2
        + (hasPermission (hasPermission failingPermState 2 "company:read").2.1 2 "company:read").2.2 ≤ 1) := by
  constructor <;> decide

/-- C6 (amended): a failed store query surfaces the internal error and
leaves the cache unchanged; a successful query for an uncached role caches
exactly the queried name set and decides by membership in it; no call
removes or modifies an existing entry; and after a call that completed a
successful store query, the next call for that role is cache-served with
zero store queries — so two consecutive calls reach the store at most
once provided the first call's store query succeeds. -/
theorem c6_cache_invariants (s1 s2 s3 : PermState) (roleId rid2 r : Int)
    (perm perm2 perm3 : String) (P : List Permission) (Q : List String)
    (h1c : s1.cache.lookup roleId = none) (h1s : s1.store roleId = Except.error ())
    (h2c : s2.cache.lookup roleId = none) (h2s : s2.store roleId = Except.ok P)
    (h3 : s3.cache.lookup r = some Q) :
    hasPermission s1 roleId perm
      = (Except.error (errInternalServer.setDetails "Failed to retrieve permissions"), s1, 1)
    ∧ hasPermission s2 roleId perm
      = (Except.ok ((P.map Permission.name).contains perm),
         { s2 with cache := (roleId, P.map Permission.name) :: s2.cache }, 1)
    ∧ (hasPermission s2 roleId perm).2.1.cache.lookup roleId = some (P.map Permission.name)
    ∧ (hasPermission s3 rid2 perm3).2.1.cache.lookup r = some Q
    ∧ hasPermission (hasPermission s2 roleId perm).2.1 roleId perm2
      = (Except.ok ((P.map Permission.name).contains perm2),
         (hasPermission s2 roleId perm).2.1, 0) := by
  have h2 := hasPermission_cache_miss_ok s2 roleId perm P h2c h2s
  have hentry : (hasPermission s2 roleId perm).2.1.cache.lookup roleId
      = some (P.map Permission.name) := by
    rw [h2]
    simp [List.lookup]
  refine ⟨hasPermission_cache_miss_err s1 roleId perm h1c h1s, h2, hentry,
    hasPermission_preserves_entry s3 rid2 perm3 r Q h3,
    hasPermission_cache_hit _ roleId perm2 _ hentry⟩

/-- C6 witness: the invariants at role 2 over the failing store, the
finance store (set containing company:read), and a service whose cache
already holds role 3. -/
theorem c6_cache_invariants_witness :
    hasPermission failingPermState 2 "company:read"
      = (Except.error (errInternalServer.setDetails "Failed to retrieve permissions"),
         failingPermState, 1)
    ∧ hasPermission financePermState 2 "company:read"
      = (Except.ok ((([{ name := "company:read" }] : List Permission).map Permission.name).contains "company:read"),
         { financePermState with
             cache := (2, ([{ name := "company:read" }] : List Permission).map Permission.name)
               :: financePermState.cache }, 1)
    ∧ (hasPermission financePermState 2 "company:read").2.1.cache.lookup 2
      = some (([{ name := "company:read" }] : List Permission).map Permission.name)
    ∧ (hasPermission seededPermState 2 "company:read").2.1.cache.lookup 3 = some ["menu:read"]
    ∧ hasPermission (hasPermission financePermState 2 "company:read").2.1 2 "account:delete"
      = (Except.ok ((([{ name := "company:read" }] : List Permission).map Permission.name).contains "account:delete"),
         (hasPermission financePermState 2 "company:read").2.1, 0) :=
  c6_cache_invariants failingPermState financePermState seededPermState 2 2 3
    "company:read" "account:delete" "company:read" [{ name := "company:read" }] ["menu:read"]
    rfl rfl rfl rfl rfl

/-- C7: the Register endpoint answers a duplicate username with 400 Bad
Request, an unknown role id with 400 Bad Request, and on success answers
201 with the created account whose serialized password field is blank —
in particular neither the plaintext password (non-empty by the validation
rules) nor its hash (non-empty for bcrypt) is in the response. -/
theorem c7_register_rejections_and_no_secret_leak (db1 db2 db3 : AuthDb)
    (hash : String → String) (req : RegisterRequest) (a created : Account) (role : Role)
    (hvalid : validRegisterRequest req = true)
    (hdup : db1.findByUsername req.username = Except.ok (some a))
    (hn2 : db2.findByUsername req.username = Except.ok none)
    (hr2 : db2.findRoleById req.roleId = Except.ok none)
    (hn3 : db3.findByUsername req.username = Except.ok none)
    (hr3 : db3.findRoleById req.roleId = Except.ok (some role))
    (hcr : db3.createAccount
        { id := 0, username := req.username, password := hash req.password, roleId := req.roleId }
      = Except.ok created)
    (hhash : hash req.password ≠ "") :
    registerHandler db1 hash req
      = HandlerResp.failure 400 (errBadRequest.setDetails "Username already exists")
    ∧ registerHandler db2 hash req
      = HandlerResp.failure 400 (errBadRequest.setDetails "Invalid Role ID")
    ∧ registerHandler db3 hash req
      = HandlerResp.created 201 { created with roleName := role.name, password := "" }
    ∧ ({ created with roleName := role.name, password := "" } : Account).password ≠ req.password
    ∧ ({ created with roleName := role.name, password := "" } : Account).password
        ≠ hash req.password := by
  have hlen : 6 ≤ req.password.length := by
    unfold validRegisterRequest at hvalid
    simp only [Bool.and_eq_true, decide_eq_true_eq] at hvalid
    exact hvalid.1.2
  have hpne : req.password ≠ "" := by
    intro h
    rw [h] at hlen
    exact absurd hlen (by decide)
  refine ⟨?_, ?_, ?_, ?_, ?_⟩
  · simp [registerHandler, register, hvalid, hdup, errBadRequest, CustomError.setDetails]
  · simp [registerHandler, register, hvalid, hn2, hr2, errBadRequest, CustomError.setDetails]
  · simp [registerHandler, register, hvalid, hn3, hr3, hcr]
  · exact fun h => hpne h.symm
  · exact fun h => hhash h.symm

/-- C7 witness: the three repositories dbDup, dbNoRole and dbCreate with
the request reqDemo and the stand-in hash. -/
theorem c7_register_witness :
    registerHandler dbDup hashDemo reqDemo
      = HandlerResp.failure 400 (errBadRequest.setDetails "Username already exists")
    ∧ registerHandler dbNoRole hashDemo reqDemo
      = HandlerResp.failure 400 (errBadRequest.setDetails "Invalid Role ID")
    ∧ registerHandler dbCreate hashDemo reqDemo
      = HandlerResp.created 201
          { id := 42, username := "alice", password := ""
            roleId := 2, roleName := "finance" }
    ∧ ({ id := 42, username := "alice", password := ""
         roleId := 2, roleName := "finance" } : Account).password ≠ reqDemo.password
    ∧ ({ id := 42, username := "alice", password := ""
         roleId := 2, roleName := "finance" } : Account).password ≠ hashDemo reqDemo.password := by
  have h := c7_register_rejections_and_no_secret_leak dbDup dbNoRole dbCreate hashDemo reqDemo
    acctDemo { id := 42, username := "alice", password := hashDemo "secret123", roleId := 2 }
    { id := 2, name := "finance" }
    (by decide) rfl rfl rfl rfl rfl rfl (by decide)
  exact h

/-- C8: a login attempt for a username that does not exist and a login
attempt for an existing username with a wrong password return the
identical Unauthorized error value — code 401, message Unauthorized,
details Invalid credentials — even across different repositories, clocks
and secrets, so the caller cannot tell whether the username exists. -/
theorem c8_login_indistinguishable (db1 db2 : AuthDb)
    (check1 check2 : String → String → Bool) (secret1 secret2 : String)
    (aH1 rH1 now1 aH2 rH2 now2 : Int) (u1 p1 u2 p2 : String) (account : Account)
    (h1 : db1.findByUsername u1 = Except.ok none)
    (h2 : db2.findByUsername u2 = Except.ok (some account))
    (hpw : check2 p2 account.password = false) :
    login db1 check1 secret1 aH1 rH1 now1 u1 p1
      = Except.error (errUnauthorized.setDetails "Invalid credentials")
    ∧ login db2 check2 secret2 aH2 rH2 now2 u2 p2
      = Except.error (errUnauthorized.setDetails "Invalid credentials")
    ∧ login db1 check1 secret1 aH1 rH1 now1 u1 p1
      = login db2 check2 secret2 aH2 rH2 now2 u2 p2 := by
  have e1 : login db1 check1 secret1 aH1 rH1 now1 u1 p1
      = Except.error (errUnauthorized.setDetails "Invalid credentials") := by
    simp [login, h1]
  have e2 : login db2 check2 secret2 aH2 rH2 now2 u2 p2
      = Except.error (errUnauthorized.setDetails "Invalid credentials") := by
    simp [login, h2, hpw]
  exact ⟨e1, e2, e1.trans e2.symm⟩

/-- C8 witness: username bob does not exist in dbAlice, and alice exists
but the password comparison fails; both logins produce the same error. -/
theorem c8_login_indistinguishable_witness :
    login dbAlice checkNever "k" 1 720 0 "bob" "pw"
      = Except.error (errUnauthorized.setDetails "Invalid credentials")
    ∧ login dbAlice checkNever "k" 1 720 0 "alice" "wrong-pw"
      = Except.error (errUnauthorized.setDetails "Invalid credentials")
    ∧ login dbAlice checkNever "k" 1 720 0 "bob" "pw"
      = login dbAlice checkNever "k" 1 720 0 "alice" "wrong-pw" :=
  c8_login_indistinguishable dbAlice dbAlice checkNever checkNever "k" "k"
    1 720 0 1 720 0 "bob" "pw" "alice" "wrong-pw" acctDemo rfl rfl rfl

/-- C9: with a verified refresh token whose embedded account id no longer
resolves, RefreshToken answers Unauthorized and produces no token; when
the account does resolve, the minted access token is built from the
re-read account, its role_id claim being exactly the role id the store
returned. -/
theorem c9_refresh_requires_live_account (db1 db2 : AuthDb) (secret : String)
    (accessExpiresHours refreshExpiresHours now : Int) (t : Token)
    (claims : RefreshClaims) (account : Account)
    (hver : verifyRefreshToken now t secret = Except.ok claims)
    (h1 : db1.findAccountById claims.accountId = Except.ok none)
    (h2 : db2.findAccountById claims.accountId = Except.ok (some account)) :
    refreshTokenService db1 secret accessExpiresHours refreshExpiresHours now t
      = Except.error (errUnauthorized.setDetails "Invalid refresh token: Account not found")
    ∧ refreshTokenService db2 secret accessExpiresHours refreshExpiresHours now t
      = Except.ok (generateAuthTokens account secret accessExpiresHours refreshExpiresHours now).1
    ∧ (generateAuthTokens account secret accessExpiresHours refreshExpiresHours now).1.payload.role_id
      = some account.roleId := by
  refine ⟨?_, ?_, ?_⟩
  · simp [refreshTokenService, hver, h1]
  · simp [refreshTokenService, hver, h2]
  · rfl

/-- C9 witness: the refresh token minted for acctDemo at time 0 is
rejected against the repository with no accounts, and accepted against
dbFresh, where account 7 now has role 5 — the new access token carries
role 5. -/
theorem c9_refresh_requires_live_account_witness :
    refreshTokenService dbDeleted "k" 1 720 0 (generateAuthTokens acctDemo "k" 1 720 0).2
      = Except.error (errUnauthorized.setDetails "Invalid refresh token: Account not found")
    ∧ refreshTokenService dbFresh "k" 1 720 0 (generateAuthTokens acctDemo "k" 1 720 0).2
      = Except.ok (generateAuthTokens acctDemoRole5 "k" 1 720 0).1
    ∧ (generateAuthTokens acctDemoRole5 "k" 1 720 0).1.payload.role_id
      = some acctDemoRole5.roleId :=
  c9_refresh_requires_live_account dbDeleted dbFresh "k" 1 720 0
    (generateAuthTokens acctDemo "k" 1 720 0).2
    { accountId := 7, exp := some 2592000, iat := some 0
      iss := some "fastener-api", sub := some "7" }
    acctDemoRole5 rfl rfl rfl

/-- C10: a successful store query returning zero permissions is cached as
authoritative: the call answers (false, no error) for any permission
string, and after any further sequence of HasPermission calls a call for
that role is still answered false from the cache with zero store
queries. -/
theorem c10_empty_set_cached_authoritative (s : PermState) (roleId : Int)
    (perm perm2 : String) (calls : List (Int × String))
    (hc : s.cache.lookup roleId = none)
    (hs : s.store roleId = Except.ok []) :
    hasPermission s roleId perm
      = (Except.ok false, { s with cache := (roleId, []) :: s.cache }, 1)
    ∧ (hasPermission (runTrace (hasPermission s roleId perm).2.1 calls) roleId perm2).1
      = Except.ok false
    ∧ (hasPermission (runTrace (hasPermission s roleId perm).2.1 calls) roleId perm2).2.2
      = 0 := by
  have h1 := hasPermission_cache_miss_ok s roleId perm [] hc hs
  have h1s : hasPermission s roleId perm
      = (Except.ok false, { s with cache := (roleId, []) :: s.cache }, 1) := by
    simpa using h1
  have hentry : (hasPermission s roleId perm).2.1.cache.lookup roleId = some [] := by
    rw [h1s]
    simp [List.lookup]
  have htr := runTrace_preserves_entry calls _ roleId [] hentry
  have h2 := hasPermission_cache_hit _ roleId perm2 [] htr
  exact ⟨h1s, by simp [h2], by simp [h2]⟩

/-- C10 witness: role 4 has zero permissions in emptyRolePermState; the
first call answers false with one store query, and after an intervening
call for role 9 a call for role 4 still answers false with zero store
queries. -/
theorem c10_empty_set_cached_authoritative_witness :
    hasPermission emptyRolePermState 4 "x:y"
      = (Except.ok false,
         { emptyRolePermState with cache := (4, []) :: emptyRolePermState.cache }, 1)
    ∧ (hasPermission (runTrace (hasPermission emptyRolePermState 4 "x:y").2.1 [(9, "p:q")]) 4 "z:w").1
      = Except.ok false
    ∧ (hasPermission (runTrace (hasPermission emptyRolePermState 4 "x:y").2.1 [(9, "p:q")]) 4 "z:w").2.2
      = 0 :=
  c10_empty_set_cached_authoritative emptyRolePermState 4 "x:y" "z:w" [(9, "p:q")] rfl rfl

end Fastener
